import Mathlib

/-!
# Wall-jump state machine of `AMechanics_ProjectCharacter`

Shallow embedding of `Source/Mechanics_Project/Mechanics_ProjectCharacter.cpp`:
the collision qualification test (`IsValidCollisionForWallJump`), the entry into
the suspended state (`SetWallJumpIfApplies`), and its two exits
(`StopWallWaiting` on timeout, `CustomJump` on player input).

Conventions of the embedding.
* `float` values are rationals (every finite float is one); NaN and rounding
  are outside the model.
* The character object, its movement component and the timer manager it talks
  to are one explicit state value that every member function maps to a new one.
* Engine services whose result is a mathematical function of their argument
  (`FMath::Acos`, `FMath::RadiansToDegrees`, the forward axis of a rotation,
  `UKismetMathLibrary::MakeRotFromX`) are parameters, collected in `Engine`.
* Debug drawing and logging (`DrawDebugLine`, `UE_LOG`) do not touch the state
  and are left out.
-/

/-! ## Engine value types -/

/-- Engine vector `FVector`. -/
structure FVector where
  X : ℚ
  Y : ℚ
  Z : ℚ
  deriving DecidableEq

/-- The constant `FVector::ZeroVector`. -/
def FVector.ZeroVector : FVector := ⟨0, 0, 0⟩

/-- Binary `operator+` of `FVector`. -/
def FVector.add (a b : FVector) : FVector := ⟨a.X + b.X, a.Y + b.Y, a.Z + b.Z⟩

/-- Binary `operator-` of `FVector`. -/
def FVector.sub (a b : FVector) : FVector := ⟨a.X - b.X, a.Y - b.Y, a.Z - b.Z⟩

/-- Unary `operator-` of `FVector`. -/
def FVector.neg (a : FVector) : FVector := ⟨-a.X, -a.Y, -a.Z⟩

/-- Scalar multiple `k * v` of an `FVector`. -/
def FVector.scale (k : ℚ) (a : FVector) : FVector := ⟨k * a.X, k * a.Y, k * a.Z⟩

/-- The dot product `FVector::DotProduct`. -/
def FVector.DotProduct (a b : FVector) : ℚ := a.X * b.X + a.Y * b.Y + a.Z * b.Z

/-- Engine rotation `FRotator`, in degrees; the constructor takes pitch, yaw, roll
in this order, as `FRotator(Pitch, Yaw, Roll)` does. -/
structure FRotator where
  Pitch : ℚ
  Yaw : ℚ
  Roll : ℚ
  deriving DecidableEq

/-- Binary `operator+` of `FRotator`: componentwise. -/
def FRotator.add (a b : FRotator) : FRotator :=
  ⟨a.Pitch + b.Pitch, a.Yaw + b.Yaw, a.Roll + b.Roll⟩

/-- Movement modes `EMovementMode` of the character movement component. -/
inductive EMovementMode where
  | MOVE_None
  | MOVE_Walking
  | MOVE_NavWalking
  | MOVE_Falling
  | MOVE_Swimming
  | MOVE_Flying
  | MOVE_Custom
  deriving DecidableEq

/-- Collision object categories `ECollisionChannel`. -/
inductive ECollisionChannel where
  | ECC_WorldStatic
  | ECC_WorldDynamic
  | ECC_Pawn
  | ECC_Visibility
  | ECC_Camera
  | ECC_PhysicsBody
  | ECC_Vehicle
  | ECC_Destructible
  deriving DecidableEq

/-- The other actor of a hit, as far as the character reads it: its rotation
(`OtherActor->GetActorRotation()`). -/
structure AActor where
  ActorRotation : FRotator
  deriving DecidableEq

/-- A primitive component, as far as the character reads it: its collision object
type (`OtherComp->GetCollisionObjectType()`). -/
structure UPrimitiveComponent where
  CollisionObjectType : ECollisionChannel
  deriving DecidableEq

/-- The fields of `FHitResult` the character reads. -/
structure FHitResult where
  ImpactPoint : FVector
  ImpactNormal : FVector
  deriving DecidableEq

/-! ## Engine collaborators -/

/-- The engine's pure math services, taken as parameters. -/
structure Engine where
  /-- The function `FMath::Acos`. -/
  Acos : ℚ → ℚ
  /-- The function `FMath::RadiansToDegrees`. -/
  RadiansToDegrees : ℚ → ℚ
  /-- The forward (X) axis of an actor with the given rotation
  (`AActor::GetActorForwardVector`). -/
  GetForwardVector : FRotator → FVector
  /-- The function `UKismetMathLibrary::MakeRotFromX`. -/
  MakeRotFromX : FVector → FRotator

/-- Timer handle `FTimerHandle`: a serial number, `0` being the invalid handle. -/
abbrev FTimerHandle := Nat

/-- The member functions this character binds to a timer. -/
inductive FTimerDelegate where
  | StopWallWaiting
  deriving DecidableEq

/-- One scheduled timer of the timer manager. -/
structure FTimerData where
  Handle : FTimerHandle
  Rate : ℚ
  bLoop : Bool
  TimerDelegate : FTimerDelegate
  deriving DecidableEq

/-- Modelled from the spec: the engine's Timer Service (`FTimerManager`), of which
the repository only holds calls. It keeps the scheduled timers of this character
and the last serial number it handed out. -/
structure FTimerManager where
  ActiveTimers : List FTimerData
  LastAssignedHandle : Nat
  deriving DecidableEq

/-- Modelled from the spec: lookup of the timer a handle refers to
(`FTimerManager::FindTimer`); the invalid handle refers to none. -/
def FTimerManager.FindTimer (tm : FTimerManager) (h : FTimerHandle) : Option FTimerData :=
  if h = 0 then none else tm.ActiveTimers.find? (fun t => t.Handle == h)

/-- Modelled from the spec: whether a handle refers to a scheduled timer
(`FTimerManager::IsTimerActive`). -/
def FTimerManager.IsTimerActive (tm : FTimerManager) (h : FTimerHandle) : Bool :=
  (tm.FindTimer h).isSome

/-- Modelled from the spec: removal of the timer with a given handle. -/
def FTimerManager.InternalClearTimer (tm : FTimerManager) (h : FTimerHandle) : FTimerManager :=
  { tm with ActiveTimers := tm.ActiveTimers.filter (fun t => t.Handle != h) }

/-- Modelled from the spec: the Timer Service's `cancel(handle)`
(`FTimerManager::ClearTimer`): the timer the handle refers to, if any, is removed
and the handle is invalidated. Returns the manager and the handle. -/
def FTimerManager.ClearTimer (tm : FTimerManager) (h : FTimerHandle) :
    FTimerManager × FTimerHandle :=
  ((if (tm.FindTimer h).isSome then tm.InternalClearTimer h else tm), 0)

/-- Modelled from the spec: the Timer Service's `scheduleOnce(delay, callback)`
(`FTimerManager::SetTimer`): a timer the handle already refers to is cleared
first; for a positive rate a new timer with a fresh serial number is scheduled
and the handle is set to it, otherwise the handle is invalidated. Returns the
manager and the handle. -/
def FTimerManager.SetTimer (tm : FTimerManager) (h : FTimerHandle)
    (d : FTimerDelegate) (InRate : ℚ) (bInLoop : Bool) : FTimerManager × FTimerHandle :=
  let tm1 := if (tm.FindTimer h).isSome then tm.InternalClearTimer h else tm
  if InRate > 0 then
    let NewHandle := tm1.LastAssignedHandle + 1
    ({ ActiveTimers := tm1.ActiveTimers ++ [⟨NewHandle, InRate, bInLoop, d⟩],
       LastAssignedHandle := NewHandle }, NewHandle)
  else
    (tm1, 0)

/-- Modelled from the spec: the state of the Movement Subsystem
(`UCharacterMovementComponent`) that the character reads and writes. -/
structure UCharacterMovementComponent where
  MovementMode : EMovementMode
  Velocity : FVector
  BrakingDecelerationFlying : ℚ
  PendingLaunchVelocity : FVector
  deriving DecidableEq

/-- Modelled from the spec: the Movement Subsystem's `isFalling()`: the component
is in the falling movement mode. -/
def UCharacterMovementComponent.IsFalling (cm : UCharacterMovementComponent) : Bool :=
  cm.MovementMode == EMovementMode.MOVE_Falling

/-- Modelled from the spec: the Movement Subsystem's `setMode(mode)`. -/
def UCharacterMovementComponent.SetMovementMode (cm : UCharacterMovementComponent)
    (NewMovementMode : EMovementMode) : UCharacterMovementComponent :=
  { cm with MovementMode := NewMovementMode }

/-- Modelled from the spec: the Movement Subsystem's `stopImmediately()`: the
velocity becomes the zero vector. -/
def UCharacterMovementComponent.StopMovementImmediately (cm : UCharacterMovementComponent) :
    UCharacterMovementComponent :=
  { cm with Velocity := FVector.ZeroVector }

/-- Engine member `UCharacterMovementComponent::Launch`: the velocity is recorded
as pending launch velocity, to be applied by the component's next update. -/
def UCharacterMovementComponent.Launch (cm : UCharacterMovementComponent)
    (LaunchVel : FVector) : UCharacterMovementComponent :=
  { cm with PendingLaunchVelocity := LaunchVel }

/-- Engine member `UCharacterMovementComponent::HandlePendingLaunch`, run by the
component's next update: a non-zero pending launch velocity becomes the velocity,
the movement mode becomes falling, and the pending launch velocity is reset. -/
def UCharacterMovementComponent.HandlePendingLaunch (cm : UCharacterMovementComponent) :
    UCharacterMovementComponent :=
  if cm.PendingLaunchVelocity ≠ FVector.ZeroVector then
    { cm with
      Velocity := cm.PendingLaunchVelocity
      MovementMode := EMovementMode.MOVE_Falling
      PendingLaunchVelocity := FVector.ZeroVector }
  else cm

/-! ## The character -/

/-- Modelled from the spec: the character's state (`Mechanics_ProjectCharacter.h`
is not among the sources): its two wall-jump flags and timer handle, the actor
transform, the movement component, the jump request flag of `ACharacter`, and the
timer manager of its world. -/
structure AMechanics_ProjectCharacter where
  bWaitingForJumpInWall : Bool
  bIsFallingFromWallCollision : Bool
  JumpWallTimerHandle : FTimerHandle
  ActorLocation : FVector
  ActorRotation : FRotator
  CharacterMovement : UCharacterMovementComponent
  bPressedJump : Bool
  JumpKeyHoldTime : ℚ
  TimerManager : FTimerManager
  deriving DecidableEq

/-- Engine member `AActor::SetActorRotation`. -/
def SetActorRotation (s : AMechanics_ProjectCharacter) (NewRotation : FRotator) :
    AMechanics_ProjectCharacter :=
  { s with ActorRotation := NewRotation }

/-- Engine member `AActor::GetActorForwardVector`: the forward axis of the actor's
current rotation. -/
def GetActorForwardVector (E : Engine) (s : AMechanics_ProjectCharacter) : FVector :=
  E.GetForwardVector s.ActorRotation

/-- Engine member `ACharacter::Jump` (`Super::Jump()`): records the jump request. -/
def Jump (s : AMechanics_ProjectCharacter) : AMechanics_ProjectCharacter :=
  { s with bPressedJump := true, JumpKeyHoldTime := 0 }

/-- Engine member `ACharacter::LaunchCharacter`: the components of the current
velocity are added to the launch velocity unless the matching override flag is
set; the result is handed to the movement component. -/
def LaunchCharacter (s : AMechanics_ProjectCharacter) (LaunchVelocity : FVector)
    (bXYOverride bZOverride : Bool) : AMechanics_ProjectCharacter :=
  let Velocity := s.CharacterMovement.Velocity
  let FinalVel : FVector :=
    ⟨if bXYOverride then LaunchVelocity.X else LaunchVelocity.X + Velocity.X,
     if bXYOverride then LaunchVelocity.Y else LaunchVelocity.Y + Velocity.Y,
     if bZOverride then LaunchVelocity.Z else LaunchVelocity.Z + Velocity.Z⟩
  { s with CharacterMovement := s.CharacterMovement.Launch FinalVel }

/-- Source `AMechanics_ProjectCharacter::AngleWithForwardVector`. -/
def AngleWithForwardVector (E : Engine) (s : AMechanics_ProjectCharacter) (Other : FVector) : ℚ :=
  let DotProduct := FVector.DotProduct (GetActorForwardVector E s) Other
  let Angle := E.RadiansToDegrees (E.Acos DotProduct)
  Angle

/-- Source `AMechanics_ProjectCharacter::IsValidCollisionForWallJump`. -/
def IsValidCollisionForWallJump (E : Engine) (s : AMechanics_ProjectCharacter)
    (OtherActor : AActor) (OtherComp : UPrimitiveComponent) (ImpactNormal : FVector) : Bool :=
  if !s.CharacterMovement.IsFalling then false
  else if s.bIsFallingFromWallCollision then false
  else if OtherComp.CollisionObjectType != ECollisionChannel.ECC_WorldStatic then false
  else if OtherActor.ActorRotation.Pitch != 0 then false
  else if OtherActor.ActorRotation.Roll != 0 then false
  else
    let Angle := AngleWithForwardVector E s ImpactNormal
    if Angle >= 45 then false
    else true

/-- Source `AMechanics_ProjectCharacter::StopWallWaiting`. -/
def StopWallWaiting (s : AMechanics_ProjectCharacter) : AMechanics_ProjectCharacter :=
  let s := { s with CharacterMovement :=
    s.CharacterMovement.SetMovementMode EMovementMode.MOVE_Falling }
  let s := { s with CharacterMovement := s.CharacterMovement.StopMovementImmediately }
  let s := { s with CharacterMovement :=
    { s.CharacterMovement with BrakingDecelerationFlying := 0 } }
  let s := { s with bWaitingForJumpInWall := false }
  { s with bIsFallingFromWallCollision := true }

/-- Source `AMechanics_ProjectCharacter::CheckIfCollisionWithGround`. -/
def CheckIfCollisionWithGround (s : AMechanics_ProjectCharacter) : AMechanics_ProjectCharacter :=
  if s.CharacterMovement.Velocity.Z = 0 then
    { s with bIsFallingFromWallCollision := false }
  else s

/-- The call `GetWorld()->GetTimerManager().SetTimer(JumpWallTimerHandle, ...)` on
the character's own handle. -/
def SetJumpWallTimer (s : AMechanics_ProjectCharacter) (d : FTimerDelegate) (InRate : ℚ)
    (bInLoop : Bool) : AMechanics_ProjectCharacter :=
  let r := s.TimerManager.SetTimer s.JumpWallTimerHandle d InRate bInLoop
  { s with TimerManager := r.1, JumpWallTimerHandle := r.2 }

/-- The call `GetWorld()->GetTimerManager().ClearTimer(JumpWallTimerHandle)` on the
character's own handle. -/
def ClearJumpWallTimer (s : AMechanics_ProjectCharacter) : AMechanics_ProjectCharacter :=
  let r := s.TimerManager.ClearTimer s.JumpWallTimerHandle
  { s with TimerManager := r.1, JumpWallTimerHandle := r.2 }

/-- Source `AMechanics_ProjectCharacter::SetWallJumpIfApplies`, the handler bound to
the capsule's hit event. `HitComp` and `NormalImpulse` are not read. -/
def SetWallJumpIfApplies (E : Engine) (s : AMechanics_ProjectCharacter)
    (_HitComp : UPrimitiveComponent) (OtherActor : AActor) (OtherComp : UPrimitiveComponent)
    (_NormalImpulse : FVector) (Hit : FHitResult) : AMechanics_ProjectCharacter :=
  let s := CheckIfCollisionWithGround s
  if !IsValidCollisionForWallJump E s OtherActor OtherComp (FVector.neg Hit.ImpactNormal) then s
  else
    let DirtyRotation := E.MakeRotFromX (FVector.sub Hit.ImpactPoint s.ActorLocation)
    let RotationToWall : FRotator := ⟨0, DirtyRotation.Yaw, 0⟩
    let s := SetActorRotation s RotationToWall
    let s := { s with CharacterMovement :=
      s.CharacterMovement.SetMovementMode EMovementMode.MOVE_Flying }
    let s := { s with CharacterMovement := s.CharacterMovement.StopMovementImmediately }
    let s := { s with CharacterMovement :=
      { s.CharacterMovement with BrakingDecelerationFlying := 2000 } }
    let s := { s with bWaitingForJumpInWall := true }
    SetJumpWallTimer s FTimerDelegate.StopWallWaiting (2 / 5) false

/-- The statements of the `else` branch of `CustomJump`, in source order. -/
def CustomJumpStatements (E : Engine) :
    List (AMechanics_ProjectCharacter → AMechanics_ProjectCharacter) :=
  [ fun s => { s with bWaitingForJumpInWall := false },
    fun s => ClearJumpWallTimer s,
    fun s =>
      let JumpBackRotation := FRotator.add s.ActorRotation ⟨0, 180, 0⟩
      SetActorRotation s JumpBackRotation,
    fun s =>
      let LaunchVelocity :=
        FVector.add (FVector.scale 600 (GetActorForwardVector E s)) ⟨0, 0, 500⟩
      LaunchCharacter s LaunchVelocity true true ]

/-- Sequential execution of a list of statements. -/
def runStatements {σ : Type} (stmts : List (σ → σ)) (s : σ) : σ :=
  stmts.foldl (fun st stmt => stmt st) s

/-- The state after the first `k` statements of a list have run. -/
def stateAfter {σ : Type} (stmts : List (σ → σ)) (k : Nat) (s : σ) : σ :=
  runStatements (stmts.take k) s

/-- Source `AMechanics_ProjectCharacter::CustomJump`, the handler of the jump
input. -/
def CustomJump (E : Engine) (s : AMechanics_ProjectCharacter) : AMechanics_ProjectCharacter :=
  if !s.bWaitingForJumpInWall then Jump s
  else runStatements (CustomJumpStatements E) s

/-- Execution of a timer's bound member function. -/
def ExecuteTimerDelegate (d : FTimerDelegate) (s : AMechanics_ProjectCharacter) :
    AMechanics_ProjectCharacter :=
  match d with
  | FTimerDelegate.StopWallWaiting => StopWallWaiting s

/-- Modelled from the spec: the Timer Service firing the timer a handle refers
to: its member function runs and a timer that does not loop is removed. Nothing
happens when the handle refers to no timer. -/
def FireTimer (s : AMechanics_ProjectCharacter) (h : FTimerHandle) : AMechanics_ProjectCharacter :=
  match s.TimerManager.FindTimer h with
  | none => s
  | some t =>
    let s1 := ExecuteTimerDelegate t.TimerDelegate s
    if t.bLoop then s1
    else { s1 with TimerManager := s1.TimerManager.InternalClearTimer h }

/-! ## Observations and reachable states -/

/-- A timeout is pending: the character's handle refers to a scheduled timer (the
spec's `pendingTimeoutHandle != none`). -/
def TimeoutPending (s : AMechanics_ProjectCharacter) : Bool :=
  s.TimerManager.IsTimerActive s.JumpWallTimerHandle

/-- The initial states: both flags false and no timer scheduled. -/
def InitialState (s : AMechanics_ProjectCharacter) : Prop :=
  s.bWaitingForJumpInWall = false ∧ s.bIsFallingFromWallCollision = false ∧
    s.TimerManager.ActiveTimers = []

/-- States reachable from an initial state by hit events, jump inputs and the
firing of scheduled timers. -/
inductive Reachable (E : Engine) : AMechanics_ProjectCharacter → Prop where
  | init (s : AMechanics_ProjectCharacter) : InitialState s → Reachable E s
  | onCollision (s : AMechanics_ProjectCharacter) (HitComp : UPrimitiveComponent)
      (OtherActor : AActor) (OtherComp : UPrimitiveComponent) (NormalImpulse : FVector)
      (Hit : FHitResult) :
      Reachable E s →
      Reachable E (SetWallJumpIfApplies E s HitComp OtherActor OtherComp NormalImpulse Hit)
  | onJumpInput (s : AMechanics_ProjectCharacter) :
      Reachable E s → Reachable E (CustomJump E s)
  | onSuspensionTimeout (s : AMechanics_ProjectCharacter) (h : FTimerHandle) :
      Reachable E s → s.TimerManager.IsTimerActive h = true → Reachable E (FireTimer s h)

/-! ## Sample inputs

A coarse rational engine (its `Acos` is exact at `-1`, `0` and `1`, with `355/113`
for π; its rotations are exact on the four axis-aligned yaws) and a character
falling towards a wall that faces it. -/

/-- A concrete engine for evaluating the handlers on sample inputs. -/
def axisEngine : Engine where
  Acos := fun x => (1 - x) * (355 / 226)
  RadiansToDegrees := fun r => r * (20340 / 355)
  GetForwardVector := fun r =>
    if r.Yaw = 0 then ⟨1, 0, 0⟩ else if r.Yaw = 180 then ⟨-1, 0, 0⟩
    else if r.Yaw = 90 then ⟨0, 1, 0⟩ else if r.Yaw = -90 then ⟨0, -1, 0⟩ else ⟨1, 0, 0⟩
  MakeRotFromX := fun v =>
    ⟨0, if v.Y = 0 then (if 0 ≤ v.X then 0 else 180) else if 0 < v.Y then 90 else -90, 0⟩

/-- A character in free fall, facing along the X axis, with both flags false and
no timer scheduled. -/
def fallingCharacter : AMechanics_ProjectCharacter where
  bWaitingForJumpInWall := false
  bIsFallingFromWallCollision := false
  JumpWallTimerHandle := 0
  ActorLocation := ⟨0, 0, 100⟩
  ActorRotation := ⟨0, 0, 0⟩
  CharacterMovement := ⟨EMovementMode.MOVE_Falling, ⟨300, 0, -200⟩, 0, ⟨0, 0, 0⟩⟩
  bPressedJump := false
  JumpKeyHoldTime := 0
  TimerManager := ⟨[], 0⟩

/-- The state `fallingCharacter` is in after a head-on hit on a static wall:
suspended, in flying mode, at rest, with timer `1` scheduled. -/
def suspendedCharacter : AMechanics_ProjectCharacter where
  bWaitingForJumpInWall := true
  bIsFallingFromWallCollision := false
  JumpWallTimerHandle := 1
  ActorLocation := ⟨0, 0, 100⟩
  ActorRotation := ⟨0, 0, 0⟩
  CharacterMovement := ⟨EMovementMode.MOVE_Flying, ⟨0, 0, 0⟩, 2000, ⟨0, 0, 0⟩⟩
  bPressedJump := false
  JumpKeyHoldTime := 0
  TimerManager := ⟨[⟨1, 2 / 5, false, FTimerDelegate.StopWallWaiting⟩], 1⟩

/-- An upright wall actor (zero pitch and roll). -/
def wallActor : AActor := ⟨⟨0, 90, 0⟩⟩

/-- A wall actor tilted by a pitch of ten degrees. -/
def tiltedActor : AActor := ⟨⟨10, 90, 0⟩⟩

/-- A world-static component. -/
def wallComp : UPrimitiveComponent := ⟨ECollisionChannel.ECC_WorldStatic⟩

/-- A world-dynamic component. -/
def crateComp : UPrimitiveComponent := ⟨ECollisionChannel.ECC_WorldDynamic⟩

/-- The character's own capsule. -/
def capsuleComp : UPrimitiveComponent := ⟨ECollisionChannel.ECC_Pawn⟩

/-- A hit straight ahead of `fallingCharacter`: the normal points back at it. -/
def headOnHit : FHitResult := ⟨⟨42, 0, 100⟩, ⟨-1, 0, 0⟩⟩

/-- A hit whose negated normal has dot product `1/2` with the X axis, which
`axisEngine` turns into an angle of exactly 45 degrees. -/
def obliqueHit : FHitResult := ⟨⟨42, 0, 100⟩, ⟨-1 / 2, 0, 0⟩⟩

/-- A character launched off the wall of `suspendedCharacter`: turned around,
falling again, moving away from that wall and upwards. -/
def launchedCharacter : AMechanics_ProjectCharacter where
  bWaitingForJumpInWall := false
  bIsFallingFromWallCollision := false
  JumpWallTimerHandle := 0
  ActorLocation := ⟨-30, 0, 120⟩
  ActorRotation := ⟨0, 180, 0⟩
  CharacterMovement := ⟨EMovementMode.MOVE_Falling, ⟨-600, 0, 450⟩, 2000, ⟨0, 0, 0⟩⟩
  bPressedJump := false
  JumpKeyHoldTime := 0
  TimerManager := ⟨[], 1⟩

/-- A hit straight ahead of `launchedCharacter`, on a wall opposite the first. -/
def oppositeHit : FHitResult := ⟨⟨-72, 0, 120⟩, ⟨1, 0, 0⟩⟩

/-- A character in free fall at `x = 100`, facing along the negative X axis, with
both flags false and no timer scheduled. -/
def farCharacter : AMechanics_ProjectCharacter where
  bWaitingForJumpInWall := false
  bIsFallingFromWallCollision := false
  JumpWallTimerHandle := 0
  ActorLocation := ⟨100, 0, 100⟩
  ActorRotation := ⟨0, 180, 0⟩
  CharacterMovement := ⟨EMovementMode.MOVE_Falling, ⟨-300, 0, -200⟩, 0, ⟨0, 0, 0⟩⟩
  bPressedJump := false
  JumpKeyHoldTime := 0
  TimerManager := ⟨[], 0⟩

/-- A hit straight ahead of `farCharacter`: the impact point `x = 58` has a
positive coordinate but lies in the negative X direction from the character. -/
def nearHit : FHitResult := ⟨⟨58, 0, 100⟩, ⟨1, 0, 0⟩⟩

/-! ## The inductive invariant of the reachable states -/

/-- The invariant of the wall-jump state machine: a suspended character has its
timeout pending, is in flying mode and has the latch clear; and the timer
manager holds no timer, or exactly the one the character's handle refers to. -/
def WallJumpInvariant (s : AMechanics_ProjectCharacter) : Prop :=
  (s.bWaitingForJumpInWall = true →
    TimeoutPending s = true ∧ s.CharacterMovement.MovementMode = EMovementMode.MOVE_Flying ∧
      s.bIsFallingFromWallCollision = false) ∧
  (s.TimerManager.ActiveTimers = [] ∨
    ∃ t, s.TimerManager.ActiveTimers = [t] ∧ t.Handle = s.JumpWallTimerHandle ∧
      s.JumpWallTimerHandle ≠ 0)

/-! ## Shape of the results of the handlers -/

/-- The qualification test as a conjunction of its six conditions. -/
theorem IsValid_iff (E : Engine) (s : AMechanics_ProjectCharacter)
    (OtherActor : AActor) (OtherComp : UPrimitiveComponent) (n : FVector) :
    IsValidCollisionForWallJump E s OtherActor OtherComp n = true ↔
      (s.CharacterMovement.IsFalling = true ∧ s.bIsFallingFromWallCollision = false ∧
        OtherComp.CollisionObjectType = ECollisionChannel.ECC_WorldStatic ∧
        OtherActor.ActorRotation.Pitch = 0 ∧ OtherActor.ActorRotation.Roll = 0 ∧
        AngleWithForwardVector E s n < 45) := by
  unfold IsValidCollisionForWallJump
  by_cases h1 : s.CharacterMovement.IsFalling = true <;>
  by_cases h2 : s.bIsFallingFromWallCollision = true <;>
  by_cases h3 : OtherComp.CollisionObjectType = ECollisionChannel.ECC_WorldStatic <;>
  by_cases h4 : OtherActor.ActorRotation.Pitch = 0 <;>
  by_cases h5 : OtherActor.ActorRotation.Roll = 0 <;>
  simp [h1, h2, h3, h4, h5]

/-- The timers left by `SetTimer` at a positive rate. -/
theorem SetTimer_pos (tm : FTimerManager) (h : FTimerHandle) (d : FTimerDelegate) (r : ℚ)
    (b : Bool) (hr : 0 < r) :
    tm.SetTimer h d r b =
      ({ ActiveTimers :=
            (if tm.IsTimerActive h = true then tm.ActiveTimers.filter (fun t => t.Handle != h)
              else tm.ActiveTimers) ++ [⟨tm.LastAssignedHandle + 1, r, b, d⟩],
         LastAssignedHandle := tm.LastAssignedHandle + 1 }, tm.LastAssignedHandle + 1) := by
  unfold FTimerManager.SetTimer FTimerManager.IsTimerActive FTimerManager.InternalClearTimer
  by_cases hf : (tm.FindTimer h).isSome = true <;> simp [hf, hr]

/-- A handle that was just appended is active. -/
theorem IsTimerActive_append_self (l : List FTimerData) (n k : Nat) (t : FTimerData)
    (ht : t.Handle = n + 1) :
    FTimerManager.IsTimerActive ⟨l ++ [t], k⟩ (n + 1) = true := by
  simp [FTimerManager.IsTimerActive, FTimerManager.FindTimer, List.find?_isSome, ht]

/-- The state a qualifying hit leaves. -/
theorem SetWallJumpIfApplies_qualifying (E : Engine) (s : AMechanics_ProjectCharacter)
    (HitComp : UPrimitiveComponent) (OtherActor : AActor) (OtherComp : UPrimitiveComponent)
    (NormalImpulse : FVector) (Hit : FHitResult)
    (h : IsValidCollisionForWallJump E (CheckIfCollisionWithGround s) OtherActor OtherComp
      (FVector.neg Hit.ImpactNormal) = true) :
    SetWallJumpIfApplies E s HitComp OtherActor OtherComp NormalImpulse Hit =
      { s with
        bWaitingForJumpInWall := true
        bIsFallingFromWallCollision := false
        JumpWallTimerHandle := s.TimerManager.LastAssignedHandle + 1
        ActorRotation :=
          ⟨0, (E.MakeRotFromX (FVector.sub Hit.ImpactPoint s.ActorLocation)).Yaw, 0⟩
        CharacterMovement :=
          { s.CharacterMovement with
            MovementMode := EMovementMode.MOVE_Flying
            Velocity := FVector.ZeroVector
            BrakingDecelerationFlying := 2000 }
        TimerManager :=
          { ActiveTimers :=
              (if TimeoutPending s = true then
                s.TimerManager.ActiveTimers.filter (fun t => t.Handle != s.JumpWallTimerHandle)
              else s.TimerManager.ActiveTimers) ++
                [⟨s.TimerManager.LastAssignedHandle + 1, 2 / 5, false,
                  FTimerDelegate.StopWallWaiting⟩],
            LastAssignedHandle := s.TimerManager.LastAssignedHandle + 1 } } := by
  have hl : (CheckIfCollisionWithGround s).bIsFallingFromWallCollision = false :=
    ((IsValid_iff _ _ _ _ _).1 h).2.1
  unfold SetWallJumpIfApplies
  simp only [h, Bool.not_true, Bool.false_eq_true, if_false]
  have hpos : (0 : ℚ) < 2 / 5 := by norm_num
  simp only [SetJumpWallTimer, SetActorRotation, SetTimer_pos _ _ _ _ _ hpos,
    UCharacterMovementComponent.SetMovementMode,
    UCharacterMovementComponent.StopMovementImmediately, TimeoutPending]
  unfold CheckIfCollisionWithGround at hl ⊢
  by_cases hz : s.CharacterMovement.Velocity.Z = 0
  · simp [hz]
  · simp [hz] at hl ⊢
    simp [hl]

/-- The state a hit that does not qualify leaves. -/
theorem SetWallJumpIfApplies_rejected (E : Engine) (s : AMechanics_ProjectCharacter)
    (HitComp : UPrimitiveComponent) (OtherActor : AActor) (OtherComp : UPrimitiveComponent)
    (NormalImpulse : FVector) (Hit : FHitResult)
    (h : IsValidCollisionForWallJump E (CheckIfCollisionWithGround s) OtherActor OtherComp
      (FVector.neg Hit.ImpactNormal) = false) :
    SetWallJumpIfApplies E s HitComp OtherActor OtherComp NormalImpulse Hit =
      CheckIfCollisionWithGround s := by
  unfold SetWallJumpIfApplies
  simp [h]

/-- The reconciliation of the latch changes no other field. -/
theorem CheckIfCollisionWithGround_eq (s : AMechanics_ProjectCharacter) :
    CheckIfCollisionWithGround s =
      { s with bIsFallingFromWallCollision :=
          if s.CharacterMovement.Velocity.Z = 0 then false
          else s.bIsFallingFromWallCollision } := by
  unfold CheckIfCollisionWithGround
  by_cases hz : s.CharacterMovement.Velocity.Z = 0 <;> simp [hz]

/-- The state the suspended branch of `CustomJump` leaves. -/
theorem CustomJump_suspended (E : Engine) (s : AMechanics_ProjectCharacter)
    (h : s.bWaitingForJumpInWall = true) :
    CustomJump E s =
      { s with
        bWaitingForJumpInWall := false
        JumpWallTimerHandle := 0
        ActorRotation := ⟨s.ActorRotation.Pitch, s.ActorRotation.Yaw + 180, s.ActorRotation.Roll⟩
        CharacterMovement :=
          { s.CharacterMovement with
            PendingLaunchVelocity :=
              FVector.add
                (FVector.scale 600 (E.GetForwardVector
                  ⟨s.ActorRotation.Pitch, s.ActorRotation.Yaw + 180, s.ActorRotation.Roll⟩))
                ⟨0, 0, 500⟩ }
        TimerManager :=
          if TimeoutPending s = true then
            s.TimerManager.InternalClearTimer s.JumpWallTimerHandle
          else s.TimerManager } := by
  unfold CustomJump
  simp [h, runStatements, CustomJumpStatements, ClearJumpWallTimer, SetActorRotation,
    LaunchCharacter, GetActorForwardVector, FRotator.add, FTimerManager.ClearTimer,
    UCharacterMovementComponent.Launch, TimeoutPending, FTimerManager.IsTimerActive]

/-- The state the not-suspended branch of `CustomJump` leaves. -/
theorem CustomJump_not_suspended (E : Engine) (s : AMechanics_ProjectCharacter)
    (h : s.bWaitingForJumpInWall = false) : CustomJump E s = Jump s := by
  unfold CustomJump
  simp [h]

/-- The state `StopWallWaiting` leaves. -/
theorem StopWallWaiting_eq (s : AMechanics_ProjectCharacter) :
    StopWallWaiting s =
      { s with
        bWaitingForJumpInWall := false
        bIsFallingFromWallCollision := true
        CharacterMovement :=
          { s.CharacterMovement with
            MovementMode := EMovementMode.MOVE_Falling
            Velocity := FVector.ZeroVector
            BrakingDecelerationFlying := 0 } } := by
  simp [StopWallWaiting, UCharacterMovementComponent.SetMovementMode,
    UCharacterMovementComponent.StopMovementImmediately]

/-- The state the firing of an active timer leaves. -/
theorem FireTimer_active (s : AMechanics_ProjectCharacter) (h : FTimerHandle)
    (ha : s.TimerManager.IsTimerActive h = true) :
    ∃ t, s.TimerManager.FindTimer h = some t ∧
      FireTimer s h =
        { StopWallWaiting s with
          TimerManager :=
            if t.bLoop = true then s.TimerManager else s.TimerManager.InternalClearTimer h } := by
  unfold FTimerManager.IsTimerActive at ha
  obtain ⟨t, ht⟩ := Option.isSome_iff_exists.1 ha
  refine ⟨t, ht, ?_⟩
  unfold FireTimer
  rw [ht]
  cases hd : t.TimerDelegate
  by_cases hb : t.bLoop = true <;>
    simp [hb, hd, ExecuteTimerDelegate, StopWallWaiting_eq]

/-- Under the invariant, clearing the timer of the character's handle leaves the
timer manager without timers. -/
theorem clear_own_timer_nil (s : AMechanics_ProjectCharacter)
    (hs : s.TimerManager.ActiveTimers = [] ∨
      ∃ t, s.TimerManager.ActiveTimers = [t] ∧ t.Handle = s.JumpWallTimerHandle ∧
        s.JumpWallTimerHandle ≠ 0) :
    (if TimeoutPending s = true then
        s.TimerManager.ActiveTimers.filter (fun t => t.Handle != s.JumpWallTimerHandle)
      else s.TimerManager.ActiveTimers) = [] := by
  rcases hs with h0 | ⟨t, ht, hh, hne⟩
  · simp [h0]
  · simp [TimeoutPending, FTimerManager.IsTimerActive, FTimerManager.FindTimer, ht, hh, hne]

/-- Under the invariant, an active handle is the character's own, and clearing it
leaves the timer manager without timers. -/
theorem active_handle_is_own (s : AMechanics_ProjectCharacter) (h : FTimerHandle)
    (hs : s.TimerManager.ActiveTimers = [] ∨
      ∃ t, s.TimerManager.ActiveTimers = [t] ∧ t.Handle = s.JumpWallTimerHandle ∧
        s.JumpWallTimerHandle ≠ 0)
    (ha : s.TimerManager.IsTimerActive h = true) :
    h = s.JumpWallTimerHandle ∧
      (s.TimerManager.InternalClearTimer h).ActiveTimers = [] := by
  rcases hs with h0 | ⟨t, ht, hh, hne⟩
  · simp [FTimerManager.IsTimerActive, FTimerManager.FindTimer, h0] at ha
  · by_cases h00 : h = 0
    · simp [FTimerManager.IsTimerActive, FTimerManager.FindTimer, h00] at ha
    · simp [FTimerManager.IsTimerActive, FTimerManager.FindTimer, ht, h00,
        List.find?_cons] at ha
      have hth : t.Handle = h := by
        by_contra hc
        have hb : (t.Handle == h) = false := by simpa using hc
        rw [hb] at ha
        exact absurd ha (by simp)
      subst hth
      exact ⟨hh, by simp [FTimerManager.InternalClearTimer, ht]⟩

/-- Every reachable state satisfies the invariant. -/
theorem Reachable_invariant (E : Engine) (s : AMechanics_ProjectCharacter)
    (hr : Reachable E s) : WallJumpInvariant s := by
  induction hr with
  | init s hi =>
    exact ⟨fun hw => by rw [hi.1] at hw; exact absurd hw (by decide), Or.inl hi.2.2⟩
  | onCollision s HitComp OtherActor OtherComp NormalImpulse Hit _ ih =>
    by_cases hq : IsValidCollisionForWallJump E (CheckIfCollisionWithGround s) OtherActor
        OtherComp (FVector.neg Hit.ImpactNormal) = true
    · rw [SetWallJumpIfApplies_qualifying E s HitComp OtherActor OtherComp NormalImpulse Hit hq]
      have hnil := clear_own_timer_nil s ih.2
      refine ⟨fun _ => ⟨?_, rfl, rfl⟩,
        Or.inr ⟨⟨s.TimerManager.LastAssignedHandle + 1, 2 / 5, false,
          FTimerDelegate.StopWallWaiting⟩, ?_, rfl, Nat.succ_ne_zero _⟩⟩
      · exact IsTimerActive_append_self _ _ _ _ rfl
      · simp only [hnil, List.nil_append]
    · have hq2 := Bool.eq_false_iff.2 hq
      rw [SetWallJumpIfApplies_rejected E s HitComp OtherActor OtherComp NormalImpulse Hit hq2,
        CheckIfCollisionWithGround_eq]
      refine ⟨fun hw => ?_, ih.2⟩
      obtain ⟨h1, h2, h3⟩ := ih.1 hw
      refine ⟨h1, h2, ?_⟩
      by_cases hz : s.CharacterMovement.Velocity.Z = 0 <;> simp [hz, h3]
  | onJumpInput s _ ih =>
    by_cases hw : s.bWaitingForJumpInWall = true
    · rw [CustomJump_suspended E s hw]
      refine ⟨fun hc => absurd hc (by simp), Or.inl ?_⟩
      have hnil := clear_own_timer_nil s ih.2
      by_cases hp : TimeoutPending s = true
      · simpa [hp, FTimerManager.InternalClearTimer] using hnil
      · simpa [hp] using hnil
    · have hw2 := Bool.eq_false_iff.2 hw
      rw [CustomJump_not_suspended E s hw2]
      exact ⟨fun hc => absurd (show s.bWaitingForJumpInWall = true from hc) hw, ih.2⟩
  | onSuspensionTimeout s h _ ha ih =>
    obtain ⟨t, _, hf⟩ := FireTimer_active s h ha
    obtain ⟨hown, hclr⟩ := active_handle_is_own s h ih.2 ha
    rw [hf, StopWallWaiting_eq]
    refine ⟨fun hc => absurd hc (by simp), ?_⟩
    by_cases hb : t.bLoop = true
    · simpa [hb] using ih.2
    · exact Or.inl (by simpa [hb] using hclr)

/-! ## Evaluation on the sample inputs -/

/-- The head-on hit of the sample character qualifies. -/
theorem headOnHit_qualifies :
    IsValidCollisionForWallJump axisEngine (CheckIfCollisionWithGround fallingCharacter)
      wallActor wallComp (FVector.neg headOnHit.ImpactNormal) = true := by
  rw [IsValid_iff]
  simp [CheckIfCollisionWithGround, fallingCharacter, wallActor, wallComp, headOnHit,
    UCharacterMovementComponent.IsFalling, AngleWithForwardVector, GetActorForwardVector,
    axisEngine, FVector.neg, FVector.DotProduct]

/-- The head-on hit takes the sample falling character to the sample suspended
one. -/
theorem fallingCharacter_headOnHit :
    SetWallJumpIfApplies axisEngine fallingCharacter capsuleComp wallActor wallComp
      ⟨0, 0, 0⟩ headOnHit = suspendedCharacter := by
  rw [SetWallJumpIfApplies_qualifying _ _ _ _ _ _ _ headOnHit_qualifies]
  simp [fallingCharacter, suspendedCharacter, headOnHit, axisEngine, FVector.sub,
    FVector.ZeroVector, TimeoutPending, FTimerManager.IsTimerActive, FTimerManager.FindTimer]

/-- The sample suspended character is reachable. -/
theorem suspendedCharacter_reachable : Reachable axisEngine suspendedCharacter := by
  rw [← fallingCharacter_headOnHit]
  exact Reachable.onCollision _ _ _ _ _ _
    (Reachable.init _ ⟨rfl, rfl, rfl⟩)

/-- The timeout of the sample suspended character is pending. -/
theorem suspendedCharacter_pending :
    suspendedCharacter.TimerManager.IsTimerActive 1 = true := by
  simp [suspendedCharacter, FTimerManager.IsTimerActive, FTimerManager.FindTimer]

/-! ## The claims -/

/-- C1: `IsValidCollisionForWallJump`, called on the negated impact normal as the
hit handler calls it, returns true if and only if the character is falling, the
latch `bIsFallingFromWallCollision` is false, the other component's object type is
exactly world-static, the other actor's pitch is exactly 0, its roll is exactly
0, and the angle in degrees, `RadiansToDegrees (Acos (forward · -normal))`, is
strictly less than 45. In particular, whenever the other five conditions hold, an
angle of exactly 45 does not qualify, 44.999 qualifies and 45.001 does not. -/
theorem IsValidCollisionForWallJump_spec (E : Engine) (s : AMechanics_ProjectCharacter)
    (OtherActor : AActor) (OtherComp : UPrimitiveComponent) (Hit : FHitResult) :
    (IsValidCollisionForWallJump E s OtherActor OtherComp (FVector.neg Hit.ImpactNormal) = true ↔
      (s.CharacterMovement.IsFalling = true ∧ s.bIsFallingFromWallCollision = false ∧
        OtherComp.CollisionObjectType = ECollisionChannel.ECC_WorldStatic ∧
        OtherActor.ActorRotation.Pitch = 0 ∧ OtherActor.ActorRotation.Roll = 0 ∧
        E.RadiansToDegrees (E.Acos (FVector.DotProduct (GetActorForwardVector E s)
          (FVector.neg Hit.ImpactNormal))) < 45)) ∧
    ((s.CharacterMovement.IsFalling = true ∧ s.bIsFallingFromWallCollision = false ∧
        OtherComp.CollisionObjectType = ECollisionChannel.ECC_WorldStatic ∧
        OtherActor.ActorRotation.Pitch = 0 ∧ OtherActor.ActorRotation.Roll = 0) →
      (AngleWithForwardVector E s (FVector.neg Hit.ImpactNormal) = 45 →
        IsValidCollisionForWallJump E s OtherActor OtherComp
          (FVector.neg Hit.ImpactNormal) = false) ∧
      (AngleWithForwardVector E s (FVector.neg Hit.ImpactNormal) = 44999 / 1000 →
        IsValidCollisionForWallJump E s OtherActor OtherComp
          (FVector.neg Hit.ImpactNormal) = true) ∧
      (AngleWithForwardVector E s (FVector.neg Hit.ImpactNormal) = 45001 / 1000 →
        IsValidCollisionForWallJump E s OtherActor OtherComp
          (FVector.neg Hit.ImpactNormal) = false)) := by
  have key := IsValid_iff E s OtherActor OtherComp (FVector.neg Hit.ImpactNormal)
  refine ⟨key, fun h5 => ⟨fun ha => ?_, fun ha => ?_, fun ha => ?_⟩⟩
  · rw [Bool.eq_false_iff]
    intro hv
    have := (key.1 hv).2.2.2.2.2
    rw [ha] at this
    exact absurd this (by norm_num)
  · refine key.2 ⟨h5.1, h5.2.1, h5.2.2.1, h5.2.2.2.1, h5.2.2.2.2, ?_⟩
    rw [ha]
    norm_num
  · rw [Bool.eq_false_iff]
    intro hv
    have := (key.1 hv).2.2.2.2.2
    rw [ha] at this
    exact absurd this (by norm_num)

/-- Witness of C1: on the sample engine the sample falling character qualifies on
the head-on hit (angle 0) and does not on the oblique hit (angle exactly 45). -/
theorem IsValidCollisionForWallJump_spec_witness :
    IsValidCollisionForWallJump axisEngine fallingCharacter wallActor wallComp
        (FVector.neg headOnHit.ImpactNormal) = true ∧
      AngleWithForwardVector axisEngine fallingCharacter
        (FVector.neg obliqueHit.ImpactNormal) = 45 ∧
      IsValidCollisionForWallJump axisEngine fallingCharacter wallActor wallComp
        (FVector.neg obliqueHit.ImpactNormal) = false := by
  have h45 : AngleWithForwardVector axisEngine fallingCharacter
      (FVector.neg obliqueHit.ImpactNormal) = 45 := by
    simp [AngleWithForwardVector, GetActorForwardVector, axisEngine, fallingCharacter,
      obliqueHit, FVector.neg, FVector.DotProduct]
    norm_num
  refine ⟨?_, h45, ?_⟩
  · refine (IsValidCollisionForWallJump_spec axisEngine fallingCharacter wallActor wallComp
      headOnHit).1.2 ?_
    simp [fallingCharacter, wallActor, wallComp, headOnHit,
      UCharacterMovementComponent.IsFalling, GetActorForwardVector,
      axisEngine, FVector.neg, FVector.DotProduct]
  · refine ((IsValidCollisionForWallJump_spec axisEngine fallingCharacter wallActor wallComp
      obliqueHit).2 ?_).1 h45
    simp [fallingCharacter, wallActor, wallComp, UCharacterMovementComponent.IsFalling]

/-- C2: when the qualification evaluated by the hit handler fails (in particular
whenever the other component is not world-static, or the other actor has non-zero
pitch or non-zero roll), `SetWallJumpIfApplies` does not activate suspension: the
suspension flag, the timer manager and timer handle (hence the pending timeout),
the movement component (mode and velocity) and the actor's rotation are
unchanged; the result is the input state with the latch
`bIsFallingFromWallCollision` cleared when the vertical velocity is exactly zero
and kept otherwise. -/
theorem SetWallJumpIfApplies_rejected_frame (E : Engine) (s : AMechanics_ProjectCharacter)
    (HitComp : UPrimitiveComponent) (OtherActor : AActor) (OtherComp : UPrimitiveComponent)
    (NormalImpulse : FVector) (Hit : FHitResult)
    (h : IsValidCollisionForWallJump E (CheckIfCollisionWithGround s) OtherActor OtherComp
          (FVector.neg Hit.ImpactNormal) = false ∨
        OtherComp.CollisionObjectType ≠ ECollisionChannel.ECC_WorldStatic ∨
        OtherActor.ActorRotation.Pitch ≠ 0 ∨ OtherActor.ActorRotation.Roll ≠ 0) :
    IsValidCollisionForWallJump E (CheckIfCollisionWithGround s) OtherActor OtherComp
        (FVector.neg Hit.ImpactNormal) = false ∧
      SetWallJumpIfApplies E s HitComp OtherActor OtherComp NormalImpulse Hit =
        { s with bIsFallingFromWallCollision :=
            if s.CharacterMovement.Velocity.Z = 0 then false
            else s.bIsFallingFromWallCollision } ∧
      (SetWallJumpIfApplies E s HitComp OtherActor OtherComp NormalImpulse
        Hit).bWaitingForJumpInWall = s.bWaitingForJumpInWall ∧
      (SetWallJumpIfApplies E s HitComp OtherActor OtherComp NormalImpulse
        Hit).TimerManager = s.TimerManager ∧
      (SetWallJumpIfApplies E s HitComp OtherActor OtherComp NormalImpulse
        Hit).JumpWallTimerHandle = s.JumpWallTimerHandle ∧
      TimeoutPending (SetWallJumpIfApplies E s HitComp OtherActor OtherComp NormalImpulse
        Hit) = TimeoutPending s ∧
      (SetWallJumpIfApplies E s HitComp OtherActor OtherComp NormalImpulse
        Hit).CharacterMovement = s.CharacterMovement ∧
      (SetWallJumpIfApplies E s HitComp OtherActor OtherComp NormalImpulse
        Hit).ActorRotation = s.ActorRotation := by
  have hq : IsValidCollisionForWallJump E (CheckIfCollisionWithGround s) OtherActor OtherComp
      (FVector.neg Hit.ImpactNormal) = false := by
    rcases h with h | h | h | h
    · exact h
    · rw [Bool.eq_false_iff]
      intro hv
      exact h ((IsValid_iff _ _ _ _ _).1 hv).2.2.1
    · rw [Bool.eq_false_iff]
      intro hv
      exact h ((IsValid_iff _ _ _ _ _).1 hv).2.2.2.1
    · rw [Bool.eq_false_iff]
      intro hv
      exact h ((IsValid_iff _ _ _ _ _).1 hv).2.2.2.2.1
  rw [SetWallJumpIfApplies_rejected E s HitComp OtherActor OtherComp NormalImpulse Hit hq,
    CheckIfCollisionWithGround_eq]
  exact ⟨by rw [← CheckIfCollisionWithGround_eq]; exact hq, rfl, rfl, rfl, rfl, rfl, rfl, rfl⟩

/-- Witness of C2: a head-on hit on a world-dynamic component, and one on a tilted
static wall, leave the sample falling character as it is. -/
theorem SetWallJumpIfApplies_rejected_frame_witness :
    crateComp.CollisionObjectType ≠ ECollisionChannel.ECC_WorldStatic ∧
      tiltedActor.ActorRotation.Pitch ≠ 0 ∧
      SetWallJumpIfApplies axisEngine fallingCharacter capsuleComp wallActor crateComp
        ⟨0, 0, 0⟩ headOnHit = fallingCharacter ∧
      SetWallJumpIfApplies axisEngine fallingCharacter capsuleComp tiltedActor wallComp
        ⟨0, 0, 0⟩ headOnHit = fallingCharacter := by
  have hc : crateComp.CollisionObjectType ≠ ECollisionChannel.ECC_WorldStatic := by
    simp [crateComp]
  have ht : tiltedActor.ActorRotation.Pitch ≠ 0 := by
    simp [tiltedActor]
  refine ⟨hc, ht, ?_, ?_⟩
  · rw [(SetWallJumpIfApplies_rejected_frame axisEngine fallingCharacter capsuleComp wallActor
      crateComp ⟨0, 0, 0⟩ headOnHit (Or.inr (Or.inl hc))).2.1]
    simp [fallingCharacter]
  · rw [(SetWallJumpIfApplies_rejected_frame axisEngine fallingCharacter capsuleComp
      tiltedActor wallComp ⟨0, 0, 0⟩ headOnHit (Or.inr (Or.inr (Or.inl ht)))).2.1]
    simp [fallingCharacter]

/-- C5 (Scenario A): when the qualification evaluated by the hit handler holds,
`SetWallJumpIfApplies` sets the suspension flag, puts the movement component in
flying mode (the held mode, neither falling nor walking) with zero velocity, sets
the actor's rotation to pitch 0, roll 0 and the yaw of `MakeRotFromX` of the
vector from the actor's location to the impact point (impact point minus
location, component by component), and schedules exactly one timer: after
clearing the timer its handle referred to (if any) it appends one non-looping
timer of rate 0.4 bound to `StopWallWaiting`, stores its handle, and that timeout
is pending. If no timer was scheduled before, this is the only one. The latch is
false and the location, the pending launch velocity and the jump request are
unchanged. -/
theorem SetWallJumpIfApplies_activates (E : Engine) (s : AMechanics_ProjectCharacter)
    (HitComp : UPrimitiveComponent) (OtherActor : AActor) (OtherComp : UPrimitiveComponent)
    (NormalImpulse : FVector) (Hit : FHitResult)
    (h : IsValidCollisionForWallJump E (CheckIfCollisionWithGround s) OtherActor OtherComp
      (FVector.neg Hit.ImpactNormal) = true) :
    (SetWallJumpIfApplies E s HitComp OtherActor OtherComp NormalImpulse
        Hit).bWaitingForJumpInWall = true ∧
      (SetWallJumpIfApplies E s HitComp OtherActor OtherComp NormalImpulse
        Hit).CharacterMovement.MovementMode = EMovementMode.MOVE_Flying ∧
      (SetWallJumpIfApplies E s HitComp OtherActor OtherComp NormalImpulse
        Hit).CharacterMovement.IsFalling = false ∧
      (SetWallJumpIfApplies E s HitComp OtherActor OtherComp NormalImpulse
        Hit).CharacterMovement.Velocity = ⟨0, 0, 0⟩ ∧
      (SetWallJumpIfApplies E s HitComp OtherActor OtherComp NormalImpulse
        Hit).CharacterMovement.BrakingDecelerationFlying = 2000 ∧
      (SetWallJumpIfApplies E s HitComp OtherActor OtherComp NormalImpulse
        Hit).ActorRotation =
          ⟨0, (E.MakeRotFromX (FVector.sub Hit.ImpactPoint s.ActorLocation)).Yaw, 0⟩ ∧
      (SetWallJumpIfApplies E s HitComp OtherActor OtherComp NormalImpulse
        Hit).ActorRotation =
          ⟨0, (E.MakeRotFromX
            ⟨Hit.ImpactPoint.X - s.ActorLocation.X, Hit.ImpactPoint.Y - s.ActorLocation.Y,
              Hit.ImpactPoint.Z - s.ActorLocation.Z⟩).Yaw, 0⟩ ∧
      (SetWallJumpIfApplies E s HitComp OtherActor OtherComp NormalImpulse
        Hit).TimerManager.ActiveTimers =
          (if TimeoutPending s = true then
            s.TimerManager.ActiveTimers.filter (fun t => t.Handle != s.JumpWallTimerHandle)
          else s.TimerManager.ActiveTimers) ++
            [⟨s.TimerManager.LastAssignedHandle + 1, 2 / 5, false,
              FTimerDelegate.StopWallWaiting⟩] ∧
      (SetWallJumpIfApplies E s HitComp OtherActor OtherComp NormalImpulse
        Hit).JumpWallTimerHandle = s.TimerManager.LastAssignedHandle + 1 ∧
      TimeoutPending (SetWallJumpIfApplies E s HitComp OtherActor OtherComp NormalImpulse
        Hit) = true ∧
      (s.TimerManager.ActiveTimers = [] →
        (SetWallJumpIfApplies E s HitComp OtherActor OtherComp NormalImpulse
          Hit).TimerManager.ActiveTimers =
            [⟨s.TimerManager.LastAssignedHandle + 1, 2 / 5, false,
              FTimerDelegate.StopWallWaiting⟩]) ∧
      (SetWallJumpIfApplies E s HitComp OtherActor OtherComp NormalImpulse
        Hit).bIsFallingFromWallCollision = false ∧
      (SetWallJumpIfApplies E s HitComp OtherActor OtherComp NormalImpulse
        Hit).ActorLocation = s.ActorLocation ∧
      (SetWallJumpIfApplies E s HitComp OtherActor OtherComp NormalImpulse
        Hit).CharacterMovement.PendingLaunchVelocity =
          s.CharacterMovement.PendingLaunchVelocity ∧
      (SetWallJumpIfApplies E s HitComp OtherActor OtherComp NormalImpulse
        Hit).bPressedJump = s.bPressedJump := by
  rw [SetWallJumpIfApplies_qualifying E s HitComp OtherActor OtherComp NormalImpulse Hit h]
  refine ⟨rfl, rfl, rfl, rfl, rfl, rfl, rfl, rfl, rfl, ?_, fun h0 => ?_, rfl, rfl, rfl, rfl⟩
  · exact IsTimerActive_append_self _ _ _ _ rfl
  · simp [h0]

/-- Witness of C5: two head-on hits on an upright world-static wall (angle 0).
The sample falling character at the origin, hit at `x = 42`, is left suspended,
in flying mode, at rest, turned to yaw 0, with the single timer `1` of rate 0.4
scheduled: it is exactly `suspendedCharacter`. The character at `x = 100`, hit at
`x = 58`, is turned to yaw 180, the direction from its location to the impact
point, although the impact point itself has a positive coordinate. -/
theorem SetWallJumpIfApplies_activates_witness :
    IsValidCollisionForWallJump axisEngine (CheckIfCollisionWithGround fallingCharacter)
        wallActor wallComp (FVector.neg headOnHit.ImpactNormal) = true ∧
      SetWallJumpIfApplies axisEngine fallingCharacter capsuleComp wallActor wallComp
        ⟨0, 0, 0⟩ headOnHit =
          { bWaitingForJumpInWall := true
            bIsFallingFromWallCollision := false
            JumpWallTimerHandle := 1
            ActorLocation := ⟨0, 0, 100⟩
            ActorRotation := ⟨0, 0, 0⟩
            CharacterMovement := ⟨EMovementMode.MOVE_Flying, ⟨0, 0, 0⟩, 2000, ⟨0, 0, 0⟩⟩
            bPressedJump := false
            JumpKeyHoldTime := 0
            TimerManager := ⟨[⟨1, 2 / 5, false, FTimerDelegate.StopWallWaiting⟩], 1⟩ } ∧
      (SetWallJumpIfApplies axisEngine fallingCharacter capsuleComp wallActor wallComp
        ⟨0, 0, 0⟩ headOnHit).ActorRotation = ⟨0, 0, 0⟩ ∧
      (SetWallJumpIfApplies axisEngine fallingCharacter capsuleComp wallActor wallComp
        ⟨0, 0, 0⟩ headOnHit).CharacterMovement.MovementMode = EMovementMode.MOVE_Flying ∧
      (SetWallJumpIfApplies axisEngine fallingCharacter capsuleComp wallActor wallComp
        ⟨0, 0, 0⟩ headOnHit).CharacterMovement.Velocity = ⟨0, 0, 0⟩ ∧
      (SetWallJumpIfApplies axisEngine fallingCharacter capsuleComp wallActor wallComp
        ⟨0, 0, 0⟩ headOnHit).TimerManager.ActiveTimers =
          [⟨1, 2 / 5, false, FTimerDelegate.StopWallWaiting⟩] ∧
      IsValidCollisionForWallJump axisEngine (CheckIfCollisionWithGround farCharacter)
        wallActor wallComp (FVector.neg nearHit.ImpactNormal) = true ∧
      (SetWallJumpIfApplies axisEngine farCharacter capsuleComp wallActor wallComp
        ⟨0, 0, 0⟩ nearHit).ActorRotation = ⟨0, 180, 0⟩ ∧
      (SetWallJumpIfApplies axisEngine farCharacter capsuleComp wallActor wallComp
        ⟨0, 0, 0⟩ nearHit).bWaitingForJumpInWall = true := by
  have hw := SetWallJumpIfApplies_activates axisEngine fallingCharacter capsuleComp wallActor
    wallComp ⟨0, 0, 0⟩ headOnHit headOnHit_qualifies
  have hq : IsValidCollisionForWallJump axisEngine (CheckIfCollisionWithGround farCharacter)
      wallActor wallComp (FVector.neg nearHit.ImpactNormal) = true := by
    rw [IsValid_iff]
    simp [CheckIfCollisionWithGround, farCharacter, wallActor, wallComp, nearHit,
      UCharacterMovementComponent.IsFalling, AngleWithForwardVector, GetActorForwardVector,
      axisEngine, FVector.neg, FVector.DotProduct]
  have hf := SetWallJumpIfApplies_activates axisEngine farCharacter capsuleComp wallActor
    wallComp ⟨0, 0, 0⟩ nearHit hq
  have hrot0 : (SetWallJumpIfApplies axisEngine fallingCharacter capsuleComp wallActor wallComp
      ⟨0, 0, 0⟩ headOnHit).ActorRotation = ⟨0, 0, 0⟩ := by
    rw [hw.2.2.2.2.2.2.1]
    simp [fallingCharacter, headOnHit, axisEngine]
  have hrot180 : (SetWallJumpIfApplies axisEngine farCharacter capsuleComp wallActor wallComp
      ⟨0, 0, 0⟩ nearHit).ActorRotation = ⟨0, 180, 0⟩ := by
    rw [hf.2.2.2.2.2.2.1]
    simp [farCharacter, nearHit, axisEngine]
    norm_num
  exact ⟨headOnHit_qualifies, fallingCharacter_headOnHit, hrot0, hw.2.1, hw.2.2.2.1,
    hw.2.2.2.2.2.2.2.2.2.2.1 rfl, hq, hrot180, hf.1⟩

/-- C4 (Scenario B): for every state with the suspension flag set, `CustomJump`
cancels the pending timeout (the character's handle is invalidated, no timeout is
pending afterwards, and the timer the handle referred to is removed from the
timer manager), clears the suspension flag, adds 180 to the yaw of the actor's
rotation and leaves pitch and roll, and launches the character, both override
flags set, with `600 * forward + (0, 0, 500)`, where `forward` is the forward
vector of the rotation after the turn: the launch velocity handed to the movement
component has no contribution of the current velocity, and when the component
handles the launch that velocity (if non-zero) replaces the current one and the
mode becomes falling. -/
theorem CustomJump_launches (E : Engine) (s : AMechanics_ProjectCharacter)
    (h : s.bWaitingForJumpInWall = true) :
    TimeoutPending (CustomJump E s) = false ∧
      (CustomJump E s).JumpWallTimerHandle = 0 ∧
      (CustomJump E s).TimerManager.ActiveTimers =
        (if TimeoutPending s = true then
          s.TimerManager.ActiveTimers.filter (fun t => t.Handle != s.JumpWallTimerHandle)
        else s.TimerManager.ActiveTimers) ∧
      (CustomJump E s).bWaitingForJumpInWall = false ∧
      (CustomJump E s).ActorRotation =
        ⟨s.ActorRotation.Pitch, s.ActorRotation.Yaw + 180, s.ActorRotation.Roll⟩ ∧
      (CustomJump E s).CharacterMovement.PendingLaunchVelocity =
        FVector.add (FVector.scale 600 (GetActorForwardVector E (CustomJump E s))) ⟨0, 0, 500⟩ ∧
      (CustomJump E s).CharacterMovement.PendingLaunchVelocity =
        ⟨600 * (E.GetForwardVector
            ⟨s.ActorRotation.Pitch, s.ActorRotation.Yaw + 180, s.ActorRotation.Roll⟩).X,
          600 * (E.GetForwardVector
            ⟨s.ActorRotation.Pitch, s.ActorRotation.Yaw + 180, s.ActorRotation.Roll⟩).Y,
          600 * (E.GetForwardVector
            ⟨s.ActorRotation.Pitch, s.ActorRotation.Yaw + 180, s.ActorRotation.Roll⟩).Z
            + 500⟩ ∧
      ((CustomJump E s).CharacterMovement.PendingLaunchVelocity ≠ FVector.ZeroVector →
        (CustomJump E s).CharacterMovement.HandlePendingLaunch.Velocity =
          FVector.add (FVector.scale 600 (GetActorForwardVector E (CustomJump E s)))
            ⟨0, 0, 500⟩ ∧
        (CustomJump E s).CharacterMovement.HandlePendingLaunch.MovementMode =
          EMovementMode.MOVE_Falling) := by
  have hl : (CustomJump E s).CharacterMovement.PendingLaunchVelocity =
      FVector.add (FVector.scale 600 (GetActorForwardVector E (CustomJump E s)))
        ⟨0, 0, 500⟩ := by
    rw [CustomJump_suspended E s h]
    rfl
  refine ⟨?_, ?_, ?_, ?_, ?_, hl, ?_, fun hne => ?_⟩
  · rw [CustomJump_suspended E s h]
    simp [TimeoutPending, FTimerManager.IsTimerActive, FTimerManager.FindTimer]
  · rw [CustomJump_suspended E s h]
  · rw [CustomJump_suspended E s h]
    by_cases hp : TimeoutPending s = true <;> simp [hp, FTimerManager.InternalClearTimer]
  · rw [CustomJump_suspended E s h]
  · rw [CustomJump_suspended E s h]
  · rw [CustomJump_suspended E s h]
    simp [FVector.add, FVector.scale]
  · unfold UCharacterMovementComponent.HandlePendingLaunch
    rw [if_pos hne]
    exact ⟨hl, rfl⟩

/-- Witness of C4: the sample suspended character, facing the wall along the X
axis, ends up turned around with no timer left and the launch velocity
`(-600, 0, 500)`, which the movement component then makes its velocity. -/
theorem CustomJump_launches_witness :
    suspendedCharacter.bWaitingForJumpInWall = true ∧
      TimeoutPending suspendedCharacter = true ∧
      TimeoutPending (CustomJump axisEngine suspendedCharacter) = false ∧
      (CustomJump axisEngine suspendedCharacter).TimerManager.ActiveTimers = [] ∧
      (CustomJump axisEngine suspendedCharacter).ActorRotation = ⟨0, 180, 0⟩ ∧
      (CustomJump axisEngine suspendedCharacter).CharacterMovement.PendingLaunchVelocity =
        ⟨-600, 0, 500⟩ ∧
      (CustomJump axisEngine suspendedCharacter).CharacterMovement.HandlePendingLaunch.Velocity =
        ⟨-600, 0, 500⟩ := by
  have hw := CustomJump_launches axisEngine suspendedCharacter rfl
  have hp : TimeoutPending suspendedCharacter = true := by
    simp [TimeoutPending, suspendedCharacter, FTimerManager.IsTimerActive,
      FTimerManager.FindTimer]
  have hv : (CustomJump axisEngine suspendedCharacter).CharacterMovement.PendingLaunchVelocity =
      ⟨-600, 0, 500⟩ := by
    rw [hw.2.2.2.2.2.2.1]
    simp [suspendedCharacter, axisEngine]
  refine ⟨rfl, hp, hw.1, ?_, ?_, hv, ?_⟩
  · rw [hw.2.2.1, hp]
    simp [suspendedCharacter]
  · rw [hw.2.2.2.2.1]
    simp [suspendedCharacter]
  · rw [(hw.2.2.2.2.2.2.2 (by rw [hv]; simp [FVector.ZeroVector])).1, ← hw.2.2.2.2.2.1, hv]

/-- C6 (Scenario C): for every state with the suspension flag set,
`StopWallWaiting` puts the movement component in falling mode, zeroes the
velocity, resets `BrakingDecelerationFlying` to 0, clears the suspension flag and
sets the latch `bIsFallingFromWallCollision`; it changes nothing else. When the
timer manager fires a timer, the result is that of `StopWallWaiting` with the
timer manager of the input state, the fired timer removed unless it loops. -/
theorem StopWallWaiting_falls (s : AMechanics_ProjectCharacter) (h : FTimerHandle)
    (_hs : s.bWaitingForJumpInWall = true) :
    (StopWallWaiting s).CharacterMovement.MovementMode = EMovementMode.MOVE_Falling ∧
      (StopWallWaiting s).CharacterMovement.Velocity = ⟨0, 0, 0⟩ ∧
      (StopWallWaiting s).CharacterMovement.BrakingDecelerationFlying = 0 ∧
      (StopWallWaiting s).bWaitingForJumpInWall = false ∧
      (StopWallWaiting s).bIsFallingFromWallCollision = true ∧
      StopWallWaiting s =
        { s with
          bWaitingForJumpInWall := false
          bIsFallingFromWallCollision := true
          CharacterMovement :=
            ⟨EMovementMode.MOVE_Falling, ⟨0, 0, 0⟩, 0,
              s.CharacterMovement.PendingLaunchVelocity⟩ } ∧
      (s.TimerManager.IsTimerActive h = true →
        ∃ t, s.TimerManager.FindTimer h = some t ∧
          FireTimer s h =
            { StopWallWaiting s with
              TimerManager :=
                if t.bLoop = true then s.TimerManager
                else s.TimerManager.InternalClearTimer h }) := by
  refine ⟨?_, ?_, ?_, ?_, ?_, ?_, fun ha => FireTimer_active s h ha⟩ <;>
    simp [StopWallWaiting_eq, FVector.ZeroVector]

/-- Witness of C6: firing timer `1` of the sample suspended character leaves it
falling, at rest, not suspended, latched, with no timer scheduled. -/
theorem StopWallWaiting_falls_witness :
    suspendedCharacter.bWaitingForJumpInWall = true ∧
      (StopWallWaiting suspendedCharacter).CharacterMovement.MovementMode =
        EMovementMode.MOVE_Falling ∧
      (StopWallWaiting suspendedCharacter).bWaitingForJumpInWall = false ∧
      (StopWallWaiting suspendedCharacter).bIsFallingFromWallCollision = true ∧
      ∃ t, suspendedCharacter.TimerManager.FindTimer 1 = some t ∧
        FireTimer suspendedCharacter 1 =
          { StopWallWaiting suspendedCharacter with
            TimerManager :=
              if t.bLoop = true then suspendedCharacter.TimerManager
              else suspendedCharacter.TimerManager.InternalClearTimer 1 } := by
  have hw := StopWallWaiting_falls suspendedCharacter 1 rfl
  exact ⟨rfl, hw.1, hw.2.2.2.1, hw.2.2.2.2.1, hw.2.2.2.2.2.2 suspendedCharacter_pending⟩

/-- C7: in every state reachable from an initial state (both flags false, no timer
scheduled) by hit events, jump inputs and firings of scheduled timers, a set
suspension flag implies that the timeout is pending (the character's handle
refers to a scheduled timer) and that the movement mode is flying, the held mode,
which is neither falling nor walking. -/
theorem suspended_implies_timeout_and_held (E : Engine) (s : AMechanics_ProjectCharacter)
    (hr : Reachable E s) (hs : s.bWaitingForJumpInWall = true) :
    TimeoutPending s = true ∧
      s.CharacterMovement.MovementMode = EMovementMode.MOVE_Flying ∧
      s.CharacterMovement.MovementMode ≠ EMovementMode.MOVE_Falling ∧
      s.CharacterMovement.MovementMode ≠ EMovementMode.MOVE_Walking ∧
      s.CharacterMovement.IsFalling = false := by
  obtain ⟨h1, h2, _⟩ := (Reachable_invariant E s hr).1 hs
  refine ⟨h1, h2, ?_, ?_, ?_⟩
  · rw [h2]; decide
  · rw [h2]; decide
  · simp [UCharacterMovementComponent.IsFalling, h2]

/-- Witness of C7: the sample suspended character is reachable and suspended; its
timeout is pending and it is in flying mode. -/
theorem suspended_implies_timeout_and_held_witness :
    Reachable axisEngine suspendedCharacter ∧
      suspendedCharacter.bWaitingForJumpInWall = true ∧
      TimeoutPending suspendedCharacter = true ∧
      suspendedCharacter.CharacterMovement.MovementMode = EMovementMode.MOVE_Flying :=
  ⟨suspendedCharacter_reachable, rfl,
    (suspended_implies_timeout_and_held axisEngine suspendedCharacter
      suspendedCharacter_reachable rfl).1,
    (suspended_implies_timeout_and_held axisEngine suspendedCharacter
      suspendedCharacter_reachable rfl).2.1⟩

/-- C8: entering suspension while already suspended cannot happen. In every state
the character can be in (every reachable state) at most one timer is scheduled,
and whenever the suspension flag is set the qualification test rejects every hit
(the movement mode is flying, not falling), so that the hit handler leaves the
state, its timer manager and timer handle included, exactly as it is: it neither
schedules a second timer nor re-arms the pending one. -/
theorem suspended_rejects_every_hit (E : Engine) (s : AMechanics_ProjectCharacter)
    (HitComp : UPrimitiveComponent) (OtherActor : AActor) (OtherComp : UPrimitiveComponent)
    (NormalImpulse : FVector) (Hit : FHitResult) (hr : Reachable E s) :
    s.TimerManager.ActiveTimers.length ≤ 1 ∧
      (s.bWaitingForJumpInWall = true →
        IsValidCollisionForWallJump E s OtherActor OtherComp
          (FVector.neg Hit.ImpactNormal) = false ∧
        IsValidCollisionForWallJump E (CheckIfCollisionWithGround s) OtherActor OtherComp
          (FVector.neg Hit.ImpactNormal) = false ∧
        SetWallJumpIfApplies E s HitComp OtherActor OtherComp NormalImpulse Hit = s) := by
  have hinv := Reachable_invariant E s hr
  refine ⟨?_, fun hs => ?_⟩
  · rcases hinv.2 with h0 | ⟨t, ht, _⟩
    · simp [h0]
    · simp [ht]
  · obtain ⟨_, hm, hl⟩ := hinv.1 hs
    have hcheck : CheckIfCollisionWithGround s = s := by
      rw [CheckIfCollisionWithGround_eq]
      by_cases hz : s.CharacterMovement.Velocity.Z = 0
      · simp only [hz, if_true, ← hl]
      · simp only [hz, if_false]
    have hrej : IsValidCollisionForWallJump E s OtherActor OtherComp
        (FVector.neg Hit.ImpactNormal) = false := by
      rw [Bool.eq_false_iff]
      intro hv
      have hf := ((IsValid_iff _ _ _ _ _).1 hv).1
      simp [UCharacterMovementComponent.IsFalling, hm] at hf
    refine ⟨hrej, by rw [hcheck]; exact hrej, ?_⟩
    rw [SetWallJumpIfApplies_rejected E s HitComp OtherActor OtherComp NormalImpulse Hit
      (by rw [hcheck]; exact hrej), hcheck]

/-- Witness of C8: the sample suspended character is reachable, holds one
timer, and the head-on hit that suspended it is now rejected and changes
nothing. -/
theorem suspended_rejects_every_hit_witness :
    Reachable axisEngine suspendedCharacter ∧
      suspendedCharacter.bWaitingForJumpInWall = true ∧
      suspendedCharacter.TimerManager.ActiveTimers.length ≤ 1 ∧
      SetWallJumpIfApplies axisEngine suspendedCharacter capsuleComp wallActor wallComp
        ⟨0, 0, 0⟩ headOnHit = suspendedCharacter :=
  ⟨suspendedCharacter_reachable, rfl,
    (suspended_rejects_every_hit axisEngine suspendedCharacter capsuleComp wallActor wallComp
      ⟨0, 0, 0⟩ headOnHit suspendedCharacter_reachable).1,
    ((suspended_rejects_every_hit axisEngine suspendedCharacter capsuleComp wallActor wallComp
      ⟨0, 0, 0⟩ headOnHit suspendedCharacter_reachable).2 rfl).2.2⟩

/-- C9 as stated fails: the first statement of the suspended branch of `CustomJump`
clears the suspension flag while the timeout is still pending. On the sample
suspended character the state after the first statement has the flag changed and
timer `1` still scheduled. -/
theorem flag_cleared_before_timer_cancelled :
    suspendedCharacter.bWaitingForJumpInWall = true ∧
      (stateAfter (CustomJumpStatements axisEngine) 1
        suspendedCharacter).bWaitingForJumpInWall ≠ suspendedCharacter.bWaitingForJumpInWall ∧
      TimeoutPending (stateAfter (CustomJumpStatements axisEngine) 1 suspendedCharacter) = true ∧
      (stateAfter (CustomJumpStatements axisEngine) 1 suspendedCharacter).TimerManager =
        suspendedCharacter.TimerManager := by
  refine ⟨rfl, ?_, ?_, ?_⟩
  · simp [stateAfter, runStatements, CustomJumpStatements, suspendedCharacter]
  · simp [stateAfter, runStatements, CustomJumpStatements, suspendedCharacter, TimeoutPending,
      FTimerManager.IsTimerActive, FTimerManager.FindTimer]
  · simp [stateAfter, runStatements, CustomJumpStatements]

/-- C9 (amended): for every state with the suspension flag set, `CustomJump` runs
its four statements in this order: it first clears the suspension flag, changing
nothing else; its second statement cancels the timeout, after which no timeout is
pending; the actor's rotation and the movement component are changed only by
later statements, so whenever one of them differs from its initial value the
timeout has already been cancelled. -/
theorem CustomJump_statement_order (E : Engine) (s : AMechanics_ProjectCharacter)
    (hs : s.bWaitingForJumpInWall = true) :
    CustomJump E s = stateAfter (CustomJumpStatements E) 4 s ∧
      stateAfter (CustomJumpStatements E) 0 s = s ∧
      stateAfter (CustomJumpStatements E) 1 s = { s with bWaitingForJumpInWall := false } ∧
      stateAfter (CustomJumpStatements E) 2 s =
        { s with
          bWaitingForJumpInWall := false
          JumpWallTimerHandle := 0
          TimerManager :=
            if TimeoutPending s = true then
              s.TimerManager.InternalClearTimer s.JumpWallTimerHandle
            else s.TimerManager } ∧
      TimeoutPending (stateAfter (CustomJumpStatements E) 2 s) = false ∧
      (∀ k : Nat,
        ((stateAfter (CustomJumpStatements E) k s).ActorRotation ≠ s.ActorRotation ∨
          (stateAfter (CustomJumpStatements E) k s).CharacterMovement ≠ s.CharacterMovement) →
        2 ≤ k ∧ TimeoutPending (stateAfter (CustomJumpStatements E) k s) = false) := by
  refine ⟨?_, ?_, ?_, ?_, ?_, ?_⟩
  · simp [CustomJump, hs, stateAfter, CustomJumpStatements]
  · simp [stateAfter, runStatements]
  · simp [stateAfter, runStatements, CustomJumpStatements]
  · simp [stateAfter, runStatements, CustomJumpStatements, ClearJumpWallTimer,
      FTimerManager.ClearTimer, TimeoutPending, FTimerManager.IsTimerActive]
  · simp [stateAfter, runStatements, CustomJumpStatements, ClearJumpWallTimer,
      FTimerManager.ClearTimer, TimeoutPending, FTimerManager.IsTimerActive,
      FTimerManager.FindTimer]
  · intro k hk
    rcases k with _ | _ | _ | _ | k
    · simp [stateAfter, runStatements] at hk
    · simp [stateAfter, runStatements, CustomJumpStatements] at hk
    · refine ⟨le_refl 2, ?_⟩
      simp [stateAfter, runStatements, CustomJumpStatements, ClearJumpWallTimer,
        FTimerManager.ClearTimer, TimeoutPending, FTimerManager.IsTimerActive,
        FTimerManager.FindTimer]
    · refine ⟨by omega, ?_⟩
      simp [stateAfter, runStatements, CustomJumpStatements, ClearJumpWallTimer,
        FTimerManager.ClearTimer, TimeoutPending, FTimerManager.IsTimerActive,
        FTimerManager.FindTimer, SetActorRotation]
    · refine ⟨by omega, ?_⟩
      simp [stateAfter, runStatements, CustomJumpStatements, ClearJumpWallTimer,
        FTimerManager.ClearTimer, TimeoutPending, FTimerManager.IsTimerActive,
        FTimerManager.FindTimer, SetActorRotation, LaunchCharacter,
        UCharacterMovementComponent.Launch]

/-- Witness of C9 (amended): on the sample suspended character the state after two
statements differs from the initial one in the flag and the cancelled timer only,
and the state after three statements, the first with a changed rotation, has no
timeout pending. -/
theorem CustomJump_statement_order_witness :
    suspendedCharacter.bWaitingForJumpInWall = true ∧
      (stateAfter (CustomJumpStatements axisEngine) 3 suspendedCharacter).ActorRotation ≠
        suspendedCharacter.ActorRotation ∧
      TimeoutPending (stateAfter (CustomJumpStatements axisEngine) 3 suspendedCharacter) =
        false := by
  have hne : (stateAfter (CustomJumpStatements axisEngine) 3 suspendedCharacter).ActorRotation ≠
      suspendedCharacter.ActorRotation := by
    simp [stateAfter, runStatements, CustomJumpStatements, ClearJumpWallTimer,
      SetActorRotation, FRotator.add, suspendedCharacter]
  exact ⟨rfl, hne,
    ((CustomJump_statement_order axisEngine suspendedCharacter rfl).2.2.2.2.2 3
      (Or.inl hne)).2⟩

/-- C10: `CustomJump` leaves the latch `bIsFallingFromWallCollision` unchanged in
every state, in both of its branches. Consequently, in a reachable state with the
suspension flag set the latch is false after `CustomJump`, and in any later state
in which the latch still has that value, a hit that meets the other
qualification conditions (character falling, world-static component, zero pitch
and roll, angle below 45) starts a new suspension, whatever the vertical
velocity. After `StopWallWaiting`, by contrast, the latch is true, and while it
has that value a hit at non-zero vertical velocity changes nothing. -/
theorem CustomJump_keeps_latch (E : Engine) (s : AMechanics_ProjectCharacter) :
    (CustomJump E s).bIsFallingFromWallCollision = s.bIsFallingFromWallCollision ∧
      (Reachable E s → s.bWaitingForJumpInWall = true →
        (CustomJump E s).bIsFallingFromWallCollision = false ∧
        ∀ (s2 : AMechanics_ProjectCharacter) (HitComp : UPrimitiveComponent)
          (OtherActor : AActor) (OtherComp : UPrimitiveComponent) (NormalImpulse : FVector)
          (Hit : FHitResult),
          s2.bIsFallingFromWallCollision = (CustomJump E s).bIsFallingFromWallCollision →
          s2.CharacterMovement.IsFalling = true →
          OtherComp.CollisionObjectType = ECollisionChannel.ECC_WorldStatic →
          OtherActor.ActorRotation.Pitch = 0 → OtherActor.ActorRotation.Roll = 0 →
          AngleWithForwardVector E s2 (FVector.neg Hit.ImpactNormal) < 45 →
          (SetWallJumpIfApplies E s2 HitComp OtherActor OtherComp NormalImpulse
            Hit).bWaitingForJumpInWall = true ∧
          TimeoutPending (SetWallJumpIfApplies E s2 HitComp OtherActor OtherComp NormalImpulse
            Hit) = true) ∧
      ((StopWallWaiting s).bIsFallingFromWallCollision = true ∧
        ∀ (s2 : AMechanics_ProjectCharacter) (HitComp : UPrimitiveComponent)
          (OtherActor : AActor) (OtherComp : UPrimitiveComponent) (NormalImpulse : FVector)
          (Hit : FHitResult),
          s2.bIsFallingFromWallCollision = (StopWallWaiting s).bIsFallingFromWallCollision →
          s2.CharacterMovement.Velocity.Z ≠ 0 →
          SetWallJumpIfApplies E s2 HitComp OtherActor OtherComp NormalImpulse Hit = s2) := by
  have hkeep : (CustomJump E s).bIsFallingFromWallCollision = s.bIsFallingFromWallCollision := by
    by_cases hw : s.bWaitingForJumpInWall = true
    · rw [CustomJump_suspended E s hw]
    · rw [CustomJump_not_suspended E s (Bool.eq_false_iff.2 hw)]
      rfl
  refine ⟨hkeep, fun hr hs => ?_, ?_, ?_⟩
  · have hl := ((Reachable_invariant E s hr).1 hs).2.2
    refine ⟨hkeep.trans hl, ?_⟩
    intro s2 HitComp OtherActor OtherComp NormalImpulse Hit h2 hf hc hp hro ha
    have hl2 : s2.bIsFallingFromWallCollision = false := by rw [h2, hkeep, hl]
    have hcheck : CheckIfCollisionWithGround s2 = s2 := by
      rw [CheckIfCollisionWithGround_eq]
      by_cases hz : s2.CharacterMovement.Velocity.Z = 0
      · simp only [hz, if_true, ← hl2]
      · simp only [hz, if_false]
    have hq : IsValidCollisionForWallJump E (CheckIfCollisionWithGround s2) OtherActor
        OtherComp (FVector.neg Hit.ImpactNormal) = true := by
      rw [hcheck]
      exact (IsValid_iff _ _ _ _ _).2 ⟨hf, hl2, hc, hp, hro, ha⟩
    rw [SetWallJumpIfApplies_qualifying E s2 HitComp OtherActor OtherComp NormalImpulse Hit hq]
    exact ⟨rfl, IsTimerActive_append_self _ _ _ _ rfl⟩
  · rw [StopWallWaiting_eq]
  · intro s2 HitComp OtherActor OtherComp NormalImpulse Hit h2 hz
    have hl2 : s2.bIsFallingFromWallCollision = true := by
      rw [h2, StopWallWaiting_eq]
    have hcheck : CheckIfCollisionWithGround s2 = s2 := by
      rw [CheckIfCollisionWithGround_eq]
      simp only [hz, if_false]
    have hq : IsValidCollisionForWallJump E (CheckIfCollisionWithGround s2) OtherActor
        OtherComp (FVector.neg Hit.ImpactNormal) = false := by
      rw [hcheck, Bool.eq_false_iff]
      intro hv
      have := ((IsValid_iff _ _ _ _ _).1 hv).2.1
      rw [hl2] at this
      exact absurd this (by decide)
    rw [SetWallJumpIfApplies_rejected E s2 HitComp OtherActor OtherComp NormalImpulse Hit hq,
      hcheck]

/-- Witness of C10: after `CustomJump` on the sample suspended character the latch
is false; the sample launched character, rising at vertical velocity 450 with the
latch false, is suspended again by a head-on hit on the opposite wall. -/
theorem CustomJump_keeps_latch_witness :
    (CustomJump axisEngine suspendedCharacter).bIsFallingFromWallCollision = false ∧
      launchedCharacter.CharacterMovement.Velocity.Z ≠ 0 ∧
      (SetWallJumpIfApplies axisEngine launchedCharacter capsuleComp wallActor wallComp
        ⟨0, 0, 0⟩ oppositeHit).bWaitingForJumpInWall = true := by
  have hw := (CustomJump_keeps_latch axisEngine suspendedCharacter).2.1
    suspendedCharacter_reachable rfl
  refine ⟨hw.1, by simp [launchedCharacter], ?_⟩
  refine (hw.2 launchedCharacter capsuleComp wallActor wallComp ⟨0, 0, 0⟩ oppositeHit
    (by rw [hw.1]; rfl) ?_ rfl rfl rfl ?_).1
  · simp [launchedCharacter, UCharacterMovementComponent.IsFalling]
  · simp [AngleWithForwardVector, GetActorForwardVector, launchedCharacter, oppositeHit,
      axisEngine, FVector.neg, FVector.DotProduct]

/-- C3 (Scenario D), evaluated on the code: `StopWallWaiting` sets the latch but
also zeroes the velocity, so the reconciliation at the start of the next hit
handler clears the latch again, in every state. On the sample suspended
character, after timer `1` fires (latch true, suspension flag false, velocity
zero), the immediately following head-on hit on the upright world-static wall
finds the latch cleared before the qualification is evaluated and re-activates
suspension. -/
theorem timeout_then_immediate_hit_reactivates :
    (∀ s : AMechanics_ProjectCharacter,
        (StopWallWaiting s).bIsFallingFromWallCollision = true ∧
        (CheckIfCollisionWithGround (StopWallWaiting s)).bIsFallingFromWallCollision = false) ∧
      suspendedCharacter.bWaitingForJumpInWall = true ∧
      (FireTimer suspendedCharacter 1).bWaitingForJumpInWall = false ∧
      (FireTimer suspendedCharacter 1).bIsFallingFromWallCollision = true ∧
      (FireTimer suspendedCharacter 1).CharacterMovement.IsFalling = true ∧
      (FireTimer suspendedCharacter 1).CharacterMovement.Velocity.Z = 0 ∧
      IsValidCollisionForWallJump axisEngine
        (CheckIfCollisionWithGround (FireTimer suspendedCharacter 1)) wallActor wallComp
        (FVector.neg headOnHit.ImpactNormal) = true ∧
      (SetWallJumpIfApplies axisEngine (FireTimer suspendedCharacter 1) capsuleComp wallActor
        wallComp ⟨0, 0, 0⟩ headOnHit).bWaitingForJumpInWall = true := by
  have hfire : FireTimer suspendedCharacter 1 =
      { StopWallWaiting suspendedCharacter with
        TimerManager := suspendedCharacter.TimerManager.InternalClearTimer 1 } := by
    simp [FireTimer, FTimerManager.FindTimer, suspendedCharacter, ExecuteTimerDelegate,
      StopWallWaiting_eq]
  have hq : IsValidCollisionForWallJump axisEngine
      (CheckIfCollisionWithGround (FireTimer suspendedCharacter 1)) wallActor wallComp
      (FVector.neg headOnHit.ImpactNormal) = true := by
    rw [IsValid_iff, hfire, StopWallWaiting_eq]
    simp [CheckIfCollisionWithGround, suspendedCharacter, wallActor, wallComp, headOnHit,
      UCharacterMovementComponent.IsFalling, AngleWithForwardVector, GetActorForwardVector,
      axisEngine, FVector.neg, FVector.DotProduct, FVector.ZeroVector]
  refine ⟨fun s => ⟨?_, ?_⟩, rfl, ?_, ?_, ?_, ?_, hq, ?_⟩
  · rw [StopWallWaiting_eq]
  · rw [StopWallWaiting_eq]
    simp [CheckIfCollisionWithGround, FVector.ZeroVector]
  · rw [hfire, StopWallWaiting_eq]
  · rw [hfire, StopWallWaiting_eq]
  · rw [hfire, StopWallWaiting_eq]
    simp [UCharacterMovementComponent.IsFalling]
  · rw [hfire, StopWallWaiting_eq]
    simp [FVector.ZeroVector]
  · rw [SetWallJumpIfApplies_qualifying _ _ _ _ _ _ _ hq]
